/-
Verification of the per-session streaming VAD algorithm implemented in
`services/vad-service/vad_service.py` (`SileroVADService.process_audio` and
`SileroVADService._get_or_create_session`).

Shallow embedding conventions:
* Audio bytes are modelled as `List ℕ`; the analysis frame is 512 samples ×
  2 bytes = 1024 bytes, exactly as in the source (`512 * 2`).
* Python floats (probabilities, millisecond timestamps) are modelled as `ℚ`.
* The Silero model is an external collaborator.  Inside one `process_audio`
  call it is invoked once per drained frame, in order; we model its results by
  an oracle `score : ℕ → Option ℚ` indexed by the frame's ordinal within the
  call (`none` models the model call raising an exception).
* `time.time() * 1000` is read at most once per frame iteration (the two call
  sites on the voiced and on the transition branch are mutually exclusive), so
  the wall clock is modelled by an oracle `now : ℕ → ℚ` indexed the same way.
* The opus decoder is an external collaborator invoked at most once per call;
  its outcome is the oracle `decode : Option (List ℕ)` (`none` models
  `opuslib_next.OpusError`; the decoder-creation-failure branch returns the
  identical response without touching the session, so it is covered by the
  same `none` case).
* A call that raises (`HTTPException` from the generic `except` block) is
  modelled by returning `none` in place of a `VADResponse`; the session keeps
  whatever partial mutations happened before the raise, as in Python.
-/
import Mathlib

namespace VadService

/-- Configuration of `SileroVADService.__init__`:
`threshold`, `threshold_low`, `min_silence_duration_ms`,
`frame_window_threshold`. -/
structure Config where
  vad_threshold : ℚ
  vad_threshold_low : ℚ
  silence_threshold_ms : ℚ
  frame_window_threshold : ℕ
deriving Repr, DecidableEq

/-- The defaults: `threshold=0.5`, `threshold_low=0.2`,
`min_silence_duration_ms=1000`, `frame_window_threshold=3`. -/
def defaultConfig : Config :=
  { vad_threshold := 1/2
    vad_threshold_low := 1/5
    silence_threshold_ms := 1000
    frame_window_threshold := 3 }

/-- Per-session state, the dict created by
`SileroVADService._get_or_create_session`. -/
structure Session where
  audio_buffer : List ℕ
  voice_window : List Bool
  have_voice : Bool
  last_is_voice : Bool
  last_activity_time : ℚ
  voice_stop : Bool
deriving Repr, DecidableEq

/-- The zero-valued state a session is lazily created with
(`_get_or_create_session`, lines 187–194). -/
def freshSession : Session :=
  { audio_buffer := []
    voice_window := []
    have_voice := false
    last_is_voice := false
    last_activity_time := 0
    voice_stop := false }

/-- The `VADResponse` pydantic model: `have_voice`, `voice_stop`,
`speech_prob` (optional, defaulting to `None`). -/
structure VADResponse where
  have_voice : Bool
  voice_stop : Bool
  speech_prob : Option ℚ
deriving Repr, DecidableEq

/-- External collaborators of one `process_audio` call (see header). -/
structure Env where
  score : ℕ → Option ℚ
  now : ℕ → ℚ
  decode : Option (List ℕ)

/-- Python's `str.lower()` as used on `audio_format` (ASCII case mapping,
character by character; no character outside ASCII lowercases to a letter of
`"opus"`, so this is faithful for the one comparison the source makes). -/
def lower (s : String) : String :=
  ⟨s.data.map Char.toLower⟩

/-- The dual-threshold hysteresis decision (lines 287–293):
`prob >= threshold → True`, `prob <= threshold_low → False`, otherwise the
previous frame's decision `last_is_voice` carries over. -/
def classify (cfg : Config) (prob : ℚ) (last_is_voice : Bool) : Bool :=
  if cfg.vad_threshold ≤ prob then true
  else if prob ≤ cfg.vad_threshold_low then false
  else last_is_voice

/-- `session["voice_window"].append(is_voice)` followed by the truncation
`voice_window = voice_window[-10:]` when the length exceeds 10
(lines 298–301). -/
def pushWindow (w : List Bool) (d : Bool) : List Bool :=
  let w' := w ++ [d]
  if 10 < w'.length then w'.drop (w'.length - 10) else w'

/-- One iteration of the frame loop *after* the 1024-byte chunk has been
sliced off and scored (lines 286–323): classification, window voting,
endpoint check and state update.  `prob` is the model output for this frame,
`t` the wall-clock millisecond value observed during this iteration.  Returns
the updated session and the frame's `client_have_voice` candidate. -/
def stepFrame (cfg : Config) (prob t : ℚ) (s : Session) : Session × Bool :=
  let is_voice := classify cfg prob s.last_is_voice
  let w := pushWindow s.voice_window is_voice
  let client_have_voice : Bool := cfg.frame_window_threshold ≤ w.count true
  let s₁ : Session :=
    { s with last_is_voice := is_voice, voice_window := w }
  -- lines 310–315: endpoint check on the voice→silence transition
  let s₂ : Session :=
    if s₁.have_voice = true ∧ client_have_voice = false then
      if 0 < s₁.last_activity_time then
        if cfg.silence_threshold_ms ≤ t - s₁.last_activity_time then
          { s₁ with voice_stop := true }
        else s₁
      else s₁
    else s₁
  -- lines 318–323: state update from the candidate
  let s₃ : Session :=
    if client_have_voice then
      { s₂ with have_voice := true, last_activity_time := t, voice_stop := false }
    else
      { s₂ with have_voice := false }
  (s₃, client_have_voice)

/-- The drain loop `while len(session["audio_buffer"]) >= 512 * 2`
(lines 254–323).  `buf` is the session's byte buffer, threaded separately so
that the final session's `audio_buffer` is the remainder; `idx` counts frames
drained in this call (indexing the oracles); `chv`/`sp` are the loop-carried
`client_have_voice` (initially `False`) and `speech_prob` (initially `None`).
Result `none` in the second component models the model call raising: the
failing frame's chunk has already been sliced off (lines 256–257 precede the
model call), all other per-frame effects of the failing frame are absent. -/
def drainLoop (cfg : Config) (env : Env) (idx : ℕ) (buf : List ℕ)
    (s : Session) (chv : Bool) (sp : Option ℚ) :
    Session × Option (Bool × Option ℚ) :=
  if h : 1024 ≤ buf.length then
    let rest := buf.drop 1024
    match env.score idx with
    | none => ({ s with audio_buffer := rest }, none)
    | some prob =>
      let sp' := some (sp.getD prob)
      let r := stepFrame cfg prob (env.now idx) s
      drainLoop cfg env (idx + 1) rest r.1 r.2 sp'
  else
    ({ s with audio_buffer := buf }, some (chv, sp))
termination_by buf.length
decreasing_by
  simp only [List.length_drop]
  exact Nat.sub_lt (Nat.lt_of_lt_of_le (by norm_num) h) (by norm_num)

/-- The tail of `process_audio` once bytes have been appended to the buffer:
drain all complete frames, then read `voice_stop` and clear it when it was
read as true (lines 250–335). -/
def finishCall (cfg : Config) (env : Env) (s : Session) :
    Session × Option VADResponse :=
  match drainLoop cfg env 0 s.audio_buffer s false none with
  | (s', none) => (s', none)
  | (s', some (chv, sp)) =>
    let vs := s'.voice_stop
    let s'' := if vs then { s' with voice_stop := false } else s'
    (s'', some { have_voice := chv, voice_stop := vs, speech_prob := sp })

/-- `SileroVADService.process_audio` (lines 197–339) for one session.
Format dispatch: `audio_format.lower() == "opus"` selects the decode path;
decode failure returns `VADResponse(have_voice=session["have_voice"],
voice_stop=False)` with the session untouched; any other format appends the
raw bytes.  The session-store lookup is outside this function: the caller
passes the session (a fresh one on first reference). -/
def process_audio (cfg : Config) (env : Env) (audio_data : List ℕ)
    (audio_format : String) (s : Session) :
    Session × Option VADResponse :=
  if lower audio_format = "opus" then
    match env.decode with
    | none =>
      (s, some { have_voice := s.have_voice, voice_stop := false, speech_prob := none })
    | some pcm =>
      finishCall cfg env { s with audio_buffer := s.audio_buffer ++ pcm }
  else
    finishCall cfg env { s with audio_buffer := s.audio_buffer ++ audio_data }

/-- The bytes one call appends to the session buffer: the decode result for
an opus call (`none` when the decoder raises and nothing is appended), the
raw input otherwise. -/
def ingestBytes (env : Env) (audio_data : List ℕ) (audio_format : String) :
    Option (List ℕ) :=
  if lower audio_format = "opus" then env.decode else some audio_data

/-! ### Evaluation companion

`drainLoop` is defined by well-founded recursion, which the kernel does not
evaluate, so concrete runs are computed through `runFramesOk`: the fold of
`stepFrame` over `n` frames whose scores all arrive, connected to `drainLoop`
by `drainLoop_of_runFramesOk` below.  It is run on a session whose buffer has
been emptied (the loop body never reads the buffer), which keeps concrete
evaluations away from the large byte lists. -/

/-- Fold of `stepFrame` over `n` frames starting at frame ordinal `idx`;
`none` if the scorer raises on one of them. -/
def runFramesOk (cfg : Config) (env : Env) :
    ℕ → ℕ → Session → Bool → Option ℚ →
    Option (Session × Bool × Option ℚ)
  | _, 0, s, chv, sp => some (s, chv, sp)
  | idx, n + 1, s, chv, sp =>
    match env.score idx with
    | none => none
    | some prob =>
      runFramesOk cfg env (idx + 1) n (stepFrame cfg prob (env.now idx) s).1
        (stepFrame cfg prob (env.now idx) s).2 (some (sp.getD prob))

/-! ### Concrete scenario data used below -/

/-- Scorer answering 0.9 on every frame, clock `100 + 32·i` ms. -/
def envVoiced : Env :=
  { score := fun _ => some (9/10), now := fun i => 100 + 32 * i, decode := none }

/-- Scorer that raises on every frame. -/
def envScoreFail : Env :=
  { score := fun _ => none, now := fun _ => 0, decode := none }

/-- Scorer answering 0.9 for the first three frames of a call and 0.0 after,
clock pinned at 1000 ms. -/
def envRamp : Env :=
  { score := fun i => if i < 3 then some (9/10) else some 0,
    now := fun _ => 1000, decode := none }

/-- Silence-scored frames observed at 1500 ms. -/
def envSilent1500 : Env :=
  { score := fun _ => some 0, now := fun _ => 1500, decode := none }

/-- Silence-scored frames observed at 2500 ms. -/
def envSilent2500 : Env :=
  { score := fun _ => some 0, now := fun _ => 2500, decode := none }

/-- Silence-scored frames observed at 2600 ms. -/
def envSilent2600 : Env :=
  { score := fun _ => some 0, now := fun _ => 2600, decode := none }

/-- The session produced by three 0.9-scored frames (3072 zero bytes) fed to
a fresh session under `envVoiced` (shown reachable below). -/
def sessionVoiced : Session :=
  { audio_buffer := []
    voice_window := [true, true, true]
    have_voice := true
    last_is_voice := true
    last_activity_time := 164
    voice_stop := false }

/-- The session produced by ten frames — three voiced then seven
silence-scored — fed to a fresh session under `envRamp`, all observed at
clock 1000: the window still carries 3 true votes, so the candidate was true
on every frame from the third on and the last recorded voice time is
T = 1000 (shown reachable below). -/
def sessionOnEdge : Session :=
  { audio_buffer := []
    voice_window := [true, true, true, false, false, false, false, false, false, false]
    have_voice := true
    last_is_voice := false
    last_activity_time := 1000
    voice_stop := false }

/-- `sessionOnEdge` after one silence-scored frame at 1500 ms: the candidate
has just turned false (2 true votes), `have_voice` dropped to false, no
endpoint fired (elapsed 500 < 1000). -/
def sessionAfterFirstSilent : Session :=
  { audio_buffer := []
    voice_window := [true, true, false, false, false, false, false, false, false, false]
    have_voice := false
    last_is_voice := false
    last_activity_time := 1000
    voice_stop := false }

/-! ### Helper lemmas about one frame step -/

theorem stepFrame_snd (cfg : Config) (prob t : ℚ) (s : Session) :
    (stepFrame cfg prob t s).2 =
      decide (cfg.frame_window_threshold ≤
        (pushWindow s.voice_window (classify cfg prob s.last_is_voice)).count true) := rfl

theorem stepFrame_audio_buffer (cfg : Config) (prob t : ℚ) (s : Session) :
    (stepFrame cfg prob t s).1.audio_buffer = s.audio_buffer := by
  simp only [stepFrame]
  split_ifs <;> rfl

theorem stepFrame_voice_window (cfg : Config) (prob t : ℚ) (s : Session) :
    (stepFrame cfg prob t s).1.voice_window =
      pushWindow s.voice_window (classify cfg prob s.last_is_voice) := by
  simp only [stepFrame]
  split_ifs <;> rfl

theorem pushWindow_length_le (w : List Bool) (d : Bool) :
    (pushWindow w d).length ≤ 10 := by
  simp only [pushWindow]
  split_ifs with h
  · simp only [List.length_drop]
    omega
  · simp only [List.length_append, List.length_singleton] at *
    omega

theorem stepFrame_voice_window_length_le (cfg : Config) (prob t : ℚ) (s : Session) :
    (stepFrame cfg prob t s).1.voice_window.length ≤ 10 := by
  rw [stepFrame_voice_window]
  exact pushWindow_length_le _ _

/-- Complete characterization of the endpoint flag after one frame:
a voiced frame (candidate true) clears it; a silent frame keeps a previously
set flag, and newly sets it exactly when the *previous* frame's `have_voice`
is still true (the voice→silence transition) with a positive recorded voice
timestamp whose distance to `t` has reached the silence threshold. -/
theorem stepFrame_voice_stop (cfg : Config) (prob t : ℚ) (s : Session) :
    (stepFrame cfg prob t s).1.voice_stop =
      if (stepFrame cfg prob t s).2 = true then false
      else s.voice_stop ||
        (s.have_voice && decide (0 < s.last_activity_time) &&
          decide (cfg.silence_threshold_ms ≤ t - s.last_activity_time)) := by
  simp only [stepFrame]
  split_ifs <;> simp_all

theorem stepFrame_chv_voice_stop (cfg : Config) (prob t : ℚ) (s : Session)
    (h : (stepFrame cfg prob t s).2 = true) :
    (stepFrame cfg prob t s).1.voice_stop = false := by
  rw [stepFrame_voice_stop, if_pos h]

/-! ### Helper lemmas about the drain loop and the call wrappers -/

/-- When fewer than 1024 bytes are buffered the loop body never runs. -/
theorem drainLoop_of_lt (cfg : Config) (env : Env) (idx : ℕ) (buf : List ℕ)
    (s : Session) (chv : Bool) (sp : Option ℚ) (h : buf.length < 1024) :
    drainLoop cfg env idx buf s chv sp = ({ s with audio_buffer := buf }, some (chv, sp)) := by
  rw [drainLoop]
  simp [Nat.not_le_of_lt h]

/-- When the scorer raises on the current frame, the loop stops with the
current session state, except that the failing frame's 1024 bytes have
already been sliced off the buffer (lines 256–257 precede the model call). -/
theorem drainLoop_of_score_none (cfg : Config) (env : Env) (idx : ℕ) (buf : List ℕ)
    (s : Session) (chv : Bool) (sp : Option ℚ)
    (hlen : 1024 ≤ buf.length) (hscore : env.score idx = none) :
    drainLoop cfg env idx buf s chv sp = ({ s with audio_buffer := buf.drop 1024 }, none) := by
  rw [drainLoop]
  simp [hlen, hscore]

/-- When the scorer answers on the current frame, the loop recurses. -/
theorem drainLoop_of_score_some (cfg : Config) (env : Env) (idx : ℕ) (buf : List ℕ)
    (s : Session) (chv : Bool) (sp : Option ℚ) (prob : ℚ)
    (hlen : 1024 ≤ buf.length) (hscore : env.score idx = some prob) :
    drainLoop cfg env idx buf s chv sp =
      drainLoop cfg env (idx + 1) (buf.drop 1024)
        (stepFrame cfg prob (env.now idx) s).1
        (stepFrame cfg prob (env.now idx) s).2
        (some (sp.getD prob)) := by
  rw [drainLoop]
  simp [hlen, hscore]

/-- The frame step never reads the byte buffer, so setting the buffer
commutes with it. -/
theorem stepFrame_set_buffer (cfg : Config) (prob t : ℚ) (s : Session) (b : List ℕ) :
    stepFrame cfg prob t { s with audio_buffer := b } =
      ({ (stepFrame cfg prob t s).1 with audio_buffer := b },
        (stepFrame cfg prob t s).2) := by
  obtain ⟨ab, vw, hv, lv, lat, vs⟩ := s
  simp only [stepFrame]
  dsimp only
  split_ifs <;> rfl

/-- Connecting the drain loop to the frame fold: if the buffer holds exactly
`n` complete frames plus a remainder and all `n` scores arrive, the loop is
the fold, with the remainder left in the buffer. -/
theorem drainLoop_of_runFramesOk (cfg : Config) (env : Env) :
    ∀ (n idx : ℕ) (buf : List ℕ) (s : Session) (chv : Bool) (sp : Option ℚ)
      (s' : Session) (chv' : Bool) (sp' : Option ℚ),
      runFramesOk cfg env idx n { s with audio_buffer := [] } chv sp =
        some (s', chv', sp') →
      1024 * n ≤ buf.length → buf.length < 1024 * n + 1024 →
      drainLoop cfg env idx buf s chv sp =
        ({ s' with audio_buffer := buf.drop (1024 * n) }, some (chv', sp')) := by
  intro n
  induction n with
  | zero =>
    intro idx buf s chv sp s' chv' sp' hrun h1 h2
    simp only [runFramesOk, Option.some.injEq, Prod.mk.injEq] at hrun
    obtain ⟨hs, hchv, hsp⟩ := hrun
    subst hchv
    subst hsp
    rw [drainLoop_of_lt cfg env idx buf s chv sp (by omega)]
    rw [show (1024 * 0 : ℕ) = 0 by norm_num, List.drop_zero]
    rw [← hs]
  | succ n ih =>
    intro idx buf s chv sp s' chv' sp' hrun h1 h2
    have hlen : 1024 ≤ buf.length := by omega
    cases hscore : env.score idx with
    | none =>
      simp only [runFramesOk, hscore] at hrun
      cases hrun
    | some prob =>
      simp only [runFramesOk, hscore] at hrun
      rw [stepFrame_set_buffer] at hrun
      dsimp only at hrun
      rw [drainLoop_of_score_some cfg env idx buf s chv sp prob hlen hscore]
      rw [ih (idx + 1) (buf.drop 1024) (stepFrame cfg prob (env.now idx) s).1
        (stepFrame cfg prob (env.now idx) s).2 (some (sp.getD prob)) s' chv' sp'
        hrun (by simp only [List.length_drop]; omega)
        (by simp only [List.length_drop]; omega)]
      rw [List.drop_drop]
      rw [show (1024 + 1024 * n : ℕ) = 1024 * (n + 1) by ring]

/-- `finishCall` through the frame fold. -/
theorem finishCall_of_runFramesOk (cfg : Config) (env : Env) (n : ℕ) (s : Session)
    (s' : Session) (chv' : Bool) (sp' : Option ℚ)
    (hrun : runFramesOk cfg env 0 n { s with audio_buffer := [] } false none =
      some (s', chv', sp'))
    (h1 : 1024 * n ≤ s.audio_buffer.length)
    (h2 : s.audio_buffer.length < 1024 * n + 1024) :
    finishCall cfg env s =
      (if s'.voice_stop
        then { s' with audio_buffer := s.audio_buffer.drop (1024 * n), voice_stop := false }
        else { s' with audio_buffer := s.audio_buffer.drop (1024 * n) },
       some { have_voice := chv', voice_stop := s'.voice_stop, speech_prob := sp' }) := by
  unfold finishCall
  rw [drainLoop_of_runFramesOk cfg env n 0 s.audio_buffer s false none s' chv' sp'
    hrun h1 h2]

/-- `finishCall` when the scorer raises on the very first frame. -/
theorem finishCall_score_none_first (cfg : Config) (env : Env) (s : Session)
    (hscore : env.score 0 = none) (hlen : 1024 ≤ s.audio_buffer.length) :
    finishCall cfg env s = ({ s with audio_buffer := s.audio_buffer.drop 1024 }, none) := by
  unfold finishCall
  rw [drainLoop_of_score_none cfg env 0 s.audio_buffer s false none hlen hscore]

/-- Format dispatch, non-opus arm: the raw bytes are appended. -/
theorem process_audio_not_opus (cfg : Config) (env : Env) (audio_data : List ℕ)
    (audio_format : String) (s : Session) (hfmt : lower audio_format ≠ "opus") :
    process_audio cfg env audio_data audio_format s =
      finishCall cfg env { s with audio_buffer := s.audio_buffer ++ audio_data } := by
  unfold process_audio
  rw [if_neg hfmt]

/-- Format dispatch, opus arm with a successful decode. -/
theorem process_audio_opus_decoded (cfg : Config) (env : Env) (audio_data : List ℕ)
    (audio_format : String) (s : Session) (pcm : List ℕ)
    (hfmt : lower audio_format = "opus") (hdec : env.decode = some pcm) :
    process_audio cfg env audio_data audio_format s =
      finishCall cfg env { s with audio_buffer := s.audio_buffer ++ pcm } := by
  unfold process_audio
  rw [if_pos hfmt, hdec]

/-- Format dispatch, opus arm with a failing decode: early return, session
untouched. -/
theorem process_audio_opus_fail (cfg : Config) (env : Env) (audio_data : List ℕ)
    (audio_format : String) (s : Session)
    (hfmt : lower audio_format = "opus") (hdec : env.decode = none) :
    process_audio cfg env audio_data audio_format s =
      (s, some { have_voice := s.have_voice, voice_stop := false, speech_prob := none }) := by
  unfold process_audio
  rw [if_pos hfmt, hdec]

/-- One non-opus call of exactly `1024·n` zero bytes against an
empty-buffered session, reduced to the frame fold. -/
theorem process_audio_replicate (cfg : Config) (env : Env) (n : ℕ)
    (audio_format : String) (hfmt : lower audio_format ≠ "opus") (s : Session)
    (hbuf : s.audio_buffer = []) (s' : Session) (chv' : Bool) (sp' : Option ℚ)
    (hrun : runFramesOk cfg env 0 n { s with audio_buffer := [] } false none =
      some (s', chv', sp')) :
    process_audio cfg env (List.replicate (1024 * n) 0) audio_format s =
      (if s'.voice_stop
        then { s' with audio_buffer := [], voice_stop := false }
        else { s' with audio_buffer := [] },
       some { have_voice := chv', voice_stop := s'.voice_stop, speech_prob := sp' }) := by
  rw [process_audio_not_opus cfg env _ audio_format s hfmt]
  rw [show s.audio_buffer ++ List.replicate (1024 * n) 0 = List.replicate (1024 * n) 0
    by rw [hbuf, List.nil_append]]
  rw [finishCall_of_runFramesOk cfg env n _ s' chv' sp'
    (by exact hrun)
    (by rw [List.length_replicate])
    (by rw [List.length_replicate]; omega)]
  rw [List.drop_replicate]
  rw [show (1024 * n - 1024 * n : ℕ) = 0 by omega, List.replicate_zero]

/-- `sessionVoiced` is reachable: it is the exact state after one call of
three 0.9-scored frames on a fresh session, and that call reports voice and
the first frame's probability. -/
theorem sessionVoiced_reachable :
    process_audio defaultConfig envVoiced (List.replicate (1024 * 3) 0) "pcm" freshSession =
      (sessionVoiced,
        some { have_voice := true, voice_stop := false, speech_prob := some (9/10) }) := by
  rw [process_audio_replicate defaultConfig envVoiced 3 "pcm" (by decide) freshSession rfl
    sessionVoiced true (some (9/10))
    (by norm_num [runFramesOk, stepFrame, classify, pushWindow, defaultConfig, envVoiced,
      freshSession, sessionVoiced])]
  rfl

/-- `sessionOnEdge` is reachable: it is the exact state after one
ten-frame call under `envRamp` on a fresh session (voice reached on the
third frame and held by the window through the tenth, all at clock 1000). -/
theorem sessionOnEdge_reachable :
    process_audio defaultConfig envRamp (List.replicate (1024 * 10) 0) "pcm" freshSession =
      (sessionOnEdge,
        some { have_voice := true, voice_stop := false, speech_prob := some (9/10) }) := by
  rw [process_audio_replicate defaultConfig envRamp 10 "pcm" (by decide) freshSession rfl
    sessionOnEdge true (some (9/10))
    (by norm_num [runFramesOk, stepFrame, classify, pushWindow, defaultConfig, envRamp,
      freshSession, sessionOnEdge])]
  rfl

/-- `sessionAfterFirstSilent` is reachable: one silence-scored frame at
1500 ms on `sessionOnEdge`; the candidate turns false for the first time,
and no endpoint fires (elapsed 500 ms < 1000 ms). -/
theorem sessionAfterFirstSilent_reachable :
    process_audio defaultConfig envSilent1500 (List.replicate (1024 * 1) 0) "pcm"
        sessionOnEdge =
      (sessionAfterFirstSilent,
        some { have_voice := false, voice_stop := false, speech_prob := some 0 }) := by
  rw [process_audio_replicate defaultConfig envSilent1500 1 "pcm" (by decide) sessionOnEdge
    rfl sessionAfterFirstSilent false (some 0)
    (by norm_num [runFramesOk, stepFrame, classify, pushWindow, defaultConfig, envSilent1500,
      sessionOnEdge, sessionAfterFirstSilent])]
  rfl

/-- A loop run that terminates normally leaves fewer than 1024 buffered
bytes (the `while` guard). -/
theorem drainLoop_some_buffer_lt (cfg : Config) (env : Env) :
    ∀ (idx : ℕ) (buf : List ℕ) (s : Session) (chv : Bool) (sp : Option ℚ)
      (s' : Session) (x : Bool × Option ℚ),
      drainLoop cfg env idx buf s chv sp = (s', some x) →
      s'.audio_buffer.length < 1024 := by
  intro idx buf s chv sp
  induction idx, buf, s, chv, sp using drainLoop.induct cfg env with
  | case1 idx buf s chv sp hlen hscore =>
    intro s' x h
    rw [drainLoop_of_score_none cfg env idx buf s chv sp hlen hscore] at h
    simp at h
  | case2 idx buf s chv sp hlen rest prob hscore sp' r ih =>
    intro s' x h
    rw [drainLoop_of_score_some cfg env idx buf s chv sp prob hlen hscore] at h
    exact ih s' x h
  | case3 idx buf s chv sp hlen =>
    intro s' x h
    rw [drainLoop_of_lt cfg env idx buf s chv sp (Nat.lt_of_not_le hlen)] at h
    cases h
    simpa using Nat.lt_of_not_le hlen

/-- The loop preserves the window bound (each frame rewrites the window to a
`pushWindow` result, which is always at most 10 long). -/
theorem drainLoop_voice_window_le (cfg : Config) (env : Env) :
    ∀ (idx : ℕ) (buf : List ℕ) (s : Session) (chv : Bool) (sp : Option ℚ),
      s.voice_window.length ≤ 10 →
      ((drainLoop cfg env idx buf s chv sp).1.voice_window.length ≤ 10) := by
  intro idx buf s chv sp
  induction idx, buf, s, chv, sp using drainLoop.induct cfg env with
  | case1 idx buf s chv sp hlen hscore =>
    intro hs
    rw [drainLoop_of_score_none cfg env idx buf s chv sp hlen hscore]
    exact hs
  | case2 idx buf s chv sp hlen rest prob hscore sp' r ih =>
    intro _
    rw [drainLoop_of_score_some cfg env idx buf s chv sp prob hlen hscore]
    exact ih (stepFrame_voice_window_length_le cfg prob (env.now idx) s)
  | case3 idx buf s chv sp hlen =>
    intro hs
    rw [drainLoop_of_lt cfg env idx buf s chv sp (Nat.lt_of_not_le hlen)]
    exact hs

/-- Loop invariant behind the flag exclusivity: whenever the loop-carried
candidate is true the session's stored `voice_stop` has just been cleared,
and this survives to the loop's normal exit. -/
theorem drainLoop_chv_voice_stop (cfg : Config) (env : Env) :
    ∀ (idx : ℕ) (buf : List ℕ) (s : Session) (chv : Bool) (sp : Option ℚ),
      (chv = true → s.voice_stop = false) →
      ∀ (s' : Session) (chv' : Bool) (sp' : Option ℚ),
        drainLoop cfg env idx buf s chv sp = (s', some (chv', sp')) →
        (chv' = true → s'.voice_stop = false) := by
  intro idx buf s chv sp
  induction idx, buf, s, chv, sp using drainLoop.induct cfg env with
  | case1 idx buf s chv sp hlen hscore =>
    intro _ s' chv' sp'' h
    rw [drainLoop_of_score_none cfg env idx buf s chv sp hlen hscore] at h
    simp at h
  | case2 idx buf s chv sp hlen rest prob hscore sp' r ih =>
    intro _ s' chv' sp'' h
    rw [drainLoop_of_score_some cfg env idx buf s chv sp prob hlen hscore] at h
    exact ih (fun hc => stepFrame_chv_voice_stop cfg prob (env.now idx) s hc) s' chv' sp'' h
  | case3 idx buf s chv sp hlen =>
    intro hinv s' chv' sp'' h
    rw [drainLoop_of_lt cfg env idx buf s chv sp (Nat.lt_of_not_le hlen)] at h
    rw [Prod.mk.injEq] at h
    obtain ⟨hs', hx⟩ := h
    rw [Option.some.injEq, Prod.mk.injEq] at hx
    obtain ⟨hc, -⟩ := hx
    subst hs'
    subst hc
    exact hinv

/-- A call with fewer than 1024 buffered bytes runs zero frames: the read
of `voice_stop` (cleared when true) still happens. -/
theorem finishCall_zero_frames (cfg : Config) (env : Env) (s : Session)
    (h : s.audio_buffer.length < 1024) :
    finishCall cfg env s =
      (if s.voice_stop then { s with voice_stop := false } else s,
        some { have_voice := false, voice_stop := s.voice_stop, speech_prob := none }) := by
  unfold finishCall
  rw [drainLoop_of_lt cfg env 0 s.audio_buffer s false none h]

/-- Whenever the call appends bytes `b` (raw or decoded), it is the
buffer-append followed by `finishCall`. -/
theorem process_audio_of_ingestBytes (cfg : Config) (env : Env) (data : List ℕ)
    (fmt : String) (s : Session) (b : List ℕ)
    (hb : ingestBytes env data fmt = some b) :
    process_audio cfg env data fmt s =
      finishCall cfg env { s with audio_buffer := s.audio_buffer ++ b } := by
  unfold ingestBytes at hb
  by_cases hf : lower fmt = "opus"
  · rw [if_pos hf] at hb
    exact process_audio_opus_decoded cfg env data fmt s b hf hb
  · rw [if_neg hf] at hb
    have hdb : data = b := Option.some.inj hb
    subst hdb
    exact process_audio_not_opus cfg env data fmt s hf

/-- The three shapes a call can take: opus early return on decode failure,
or append-then-drain. -/
theorem process_audio_shape (cfg : Config) (env : Env) (data : List ℕ)
    (fmt : String) (s : Session) :
    (lower fmt = "opus" ∧ env.decode = none ∧
      process_audio cfg env data fmt s =
        (s, some { have_voice := s.have_voice, voice_stop := false, speech_prob := none })) ∨
    (∃ b, ingestBytes env data fmt = some b ∧
      process_audio cfg env data fmt s =
        finishCall cfg env { s with audio_buffer := s.audio_buffer ++ b }) := by
  by_cases hf : lower fmt = "opus"
  · cases hd : env.decode with
    | none => exact Or.inl ⟨hf, hd ▸ rfl, process_audio_opus_fail cfg env data fmt s hf hd⟩
    | some pcm =>
      refine Or.inr ⟨pcm, ?_, process_audio_opus_decoded cfg env data fmt s pcm hf hd⟩
      unfold ingestBytes
      rw [if_pos hf, hd]
  · refine Or.inr ⟨data, ?_, process_audio_not_opus cfg env data fmt s hf⟩
    unfold ingestBytes
    rw [if_neg hf]

/-- Zero-frame calls: fewer than 1024 bytes total after the append. -/
theorem process_audio_zero_frames (cfg : Config) (env : Env) (data : List ℕ)
    (fmt : String) (s : Session) (b : List ℕ)
    (hb : ingestBytes env data fmt = some b)
    (hlen : s.audio_buffer.length + b.length < 1024) :
    process_audio cfg env data fmt s =
      (if s.voice_stop
        then { s with audio_buffer := s.audio_buffer ++ b, voice_stop := false }
        else { s with audio_buffer := s.audio_buffer ++ b },
       some { have_voice := false, voice_stop := s.voice_stop, speech_prob := none }) := by
  rw [process_audio_of_ingestBytes cfg env data fmt s b hb]
  rw [finishCall_zero_frames cfg env _ (by simpa [List.length_append] using hlen)]

/-- A call whose first frame's score raises: the appended bytes minus the
failing frame's 1024 bytes stay buffered, the call fails. -/
theorem process_audio_score_fail_first (cfg : Config) (env : Env) (data : List ℕ)
    (fmt : String) (s : Session) (b : List ℕ)
    (hb : ingestBytes env data fmt = some b) (hscore : env.score 0 = none)
    (hlen : 1024 ≤ s.audio_buffer.length + b.length) :
    process_audio cfg env data fmt s =
      ({ s with audio_buffer := (s.audio_buffer ++ b).drop 1024 }, none) := by
  rw [process_audio_of_ingestBytes cfg env data fmt s b hb]
  rw [finishCall_score_none_first cfg env _ hscore
    (by simpa [List.length_append] using hlen)]

/-- A call that returns normally through the drain loop leaves fewer than
1024 buffered bytes. -/
theorem finishCall_some_buffer_lt (cfg : Config) (env : Env) (s : Session)
    (s' : Session) (r : VADResponse) (h : finishCall cfg env s = (s', some r)) :
    s'.audio_buffer.length < 1024 := by
  unfold finishCall at h
  cases hd : drainLoop cfg env 0 s.audio_buffer s false none with
  | mk sl o =>
    rw [hd] at h
    cases o with
    | none => simp at h
    | some x =>
      obtain ⟨chv, sp⟩ := x
      have hlt := drainLoop_some_buffer_lt cfg env 0 s.audio_buffer s false none sl
        (chv, sp) hd
      have hs' : s' = if sl.voice_stop then { sl with voice_stop := false } else sl := by
        have := congrArg Prod.fst h
        simpa using this.symm
      rw [hs']
      cases hvs : sl.voice_stop
      · simpa [hvs] using hlt
      · simpa [hvs] using hlt

/-- Reading `voice_stop` as true clears it in the stored session. -/
theorem finishCall_read_clears (cfg : Config) (env : Env) (s : Session)
    (s' : Session) (r : VADResponse) (h : finishCall cfg env s = (s', some r))
    (hr : r.voice_stop = true) : s'.voice_stop = false := by
  unfold finishCall at h
  cases hd : drainLoop cfg env 0 s.audio_buffer s false none with
  | mk sl o =>
    rw [hd] at h
    cases o with
    | none => simp at h
    | some x =>
      obtain ⟨chv, sp⟩ := x
      have hs' : s' = if sl.voice_stop then { sl with voice_stop := false } else sl := by
        have := congrArg Prod.fst h
        simpa using this.symm
      have hrv : r = { have_voice := chv, voice_stop := sl.voice_stop, speech_prob := sp } := by
        have := congrArg Prod.snd h
        simpa using this.symm
      have hvs : sl.voice_stop = true := by rw [hrv] at hr; exact hr
      rw [hs', if_pos (by rw [hvs])]

/-- A normal return whose reported `have_voice` is true ships
`voice_stop = false` (the last voiced frame just cleared the flag). -/
theorem finishCall_flags (cfg : Config) (env : Env) (s : Session)
    (s' : Session) (r : VADResponse) (h : finishCall cfg env s = (s', some r))
    (hv : r.have_voice = true) : r.voice_stop = false := by
  unfold finishCall at h
  cases hd : drainLoop cfg env 0 s.audio_buffer s false none with
  | mk sl o =>
    rw [hd] at h
    cases o with
    | none => simp at h
    | some x =>
      obtain ⟨chv, sp⟩ := x
      have hinv := drainLoop_chv_voice_stop cfg env 0 s.audio_buffer s false none
        (by intro hc; cases hc) sl chv sp hd
      have hrv : r = { have_voice := chv, voice_stop := sl.voice_stop, speech_prob := sp } := by
        have := congrArg Prod.snd h
        simpa using this.symm
      rw [hrv]
      rw [hrv] at hv
      exact hinv hv

/-- `finishCall` preserves the window bound. -/
theorem finishCall_voice_window_le (cfg : Config) (env : Env) (s : Session)
    (h : s.voice_window.length ≤ 10) :
    (finishCall cfg env s).1.voice_window.length ≤ 10 := by
  unfold finishCall
  cases hd : drainLoop cfg env 0 s.audio_buffer s false none with
  | mk sl o =>
    have hw := drainLoop_voice_window_le cfg env 0 s.audio_buffer s false none h
    rw [hd] at hw
    cases o with
    | none => exact hw
    | some x =>
      obtain ⟨chv, sp⟩ := x
      cases hvs : sl.voice_stop
      · simpa [hvs] using hw
      · simpa [hvs] using hw

/-- `process_audio` preserves the window bound on every path. -/
theorem process_audio_voice_window_le (cfg : Config) (env : Env) (data : List ℕ)
    (fmt : String) (s : Session) (h : s.voice_window.length ≤ 10) :
    (process_audio cfg env data fmt s).1.voice_window.length ≤ 10 := by
  rcases process_audio_shape cfg env data fmt s with ⟨-, -, heq⟩ | ⟨b, -, heq⟩
  · rw [heq]; exact h
  · rw [heq]; exact finishCall_voice_window_le cfg env _ h

/-- A call that appends too few bytes for a frame (or whose decode fails)
reports `voice_stop = false` whenever no endpoint was pending. -/
theorem process_audio_zero_new_voice_stop (cfg : Config) (env : Env) (data : List ℕ)
    (fmt : String) (s : Session) (hvs : s.voice_stop = false)
    (hz : ∀ b, ingestBytes env data fmt = some b →
      s.audio_buffer.length + b.length < 1024)
    (s' : Session) (r : VADResponse)
    (h : process_audio cfg env data fmt s = (s', some r)) : r.voice_stop = false := by
  cases hb : ingestBytes env data fmt with
  | none =>
    have hf : lower fmt = "opus" ∧ env.decode = none := by
      unfold ingestBytes at hb
      split_ifs at hb with hfo
      exact ⟨hfo, hb⟩
    rw [process_audio_opus_fail cfg env data fmt s hf.1 hf.2] at h
    have := congrArg Prod.snd h
    have hr : r = { have_voice := s.have_voice, voice_stop := false, speech_prob := none } := by
      simpa using this.symm
    rw [hr]
  | some b =>
    rw [process_audio_zero_frames cfg env data fmt s b hb (hz b hb)] at h
    have := congrArg Prod.snd h
    have hr : r = { have_voice := false, voice_stop := s.voice_stop, speech_prob := none } := by
      simpa using this.symm
    rw [hr]
    exact hvs

/-- At 2500 ms — 1500 ms after the last recorded voice time of
`sessionOnEdge` — the transition frame does fire the endpoint: the call
reports `voice_stop = true` and clears the stored flag on the way out. -/
theorem endpointFires_at_2500 :
    process_audio defaultConfig envSilent2500 (List.replicate (1024 * 1) 0) "pcm"
        sessionOnEdge =
      (sessionAfterFirstSilent,
        some { have_voice := false, voice_stop := true, speech_prob := some 0 }) := by
  rw [process_audio_replicate defaultConfig envSilent2500 1 "pcm" (by decide) sessionOnEdge rfl
    { sessionAfterFirstSilent with voice_stop := true } false (some 0)
    (by norm_num [runFramesOk, stepFrame, classify, pushWindow, defaultConfig, envSilent2500,
      sessionOnEdge, sessionAfterFirstSilent])]
  rfl

/-! ### Claim theorems -/

/-- C3 (confirmed).  Hysteresis classifier at the default thresholds
HIGH = 0.5, LOW = 0.2: a probability at or above HIGH decides true, at or
below LOW decides false, strictly between the decision carries over the
session's previous frame decision; and for the very first frame of a fresh
session the ambiguous zone decides false because `last_is_voice`
initializes to false. -/
theorem claim_C3_hysteresis (p : ℚ) (last : Bool) :
    ((1/2 : ℚ) ≤ p → classify defaultConfig p last = true) ∧
    (p ≤ (1/5 : ℚ) → classify defaultConfig p last = false) ∧
    ((1/5 : ℚ) < p → p < 1/2 → classify defaultConfig p last = last) ∧
    freshSession.last_is_voice = false ∧
    ((1/5 : ℚ) < p → p < 1/2 →
      classify defaultConfig p freshSession.last_is_voice = false) := by
  have hc : ∀ (q : ℚ) (b : Bool), classify defaultConfig q b =
      if (1/2 : ℚ) ≤ q then true else if q ≤ (1/5 : ℚ) then false else b := by
    intro q b
    rfl
  refine ⟨fun h => ?_, fun h => ?_, fun h1 h2 => ?_, ?_, fun h1 h2 => ?_⟩
  · rw [hc, if_pos h]
  · rw [hc, if_neg (by intro hx; linarith), if_pos h]
  · rw [hc, if_neg (by intro hx; linarith), if_neg (by intro hx; linarith)]
  · rfl
  · rw [hc, if_neg (by intro hx; linarith), if_neg (by intro hx; linarith)]
    rfl

/-- Witness for C3 at concrete probabilities 0.7, 0.1 and 0.3. -/
theorem claim_C3_witness :
    classify defaultConfig (7/10) false = true ∧
    classify defaultConfig (1/10) true = false ∧
    classify defaultConfig (3/10) true = true ∧
    classify defaultConfig (3/10) freshSession.last_is_voice = false :=
  ⟨(claim_C3_hysteresis (7/10) false).1 (by norm_num),
   (claim_C3_hysteresis (1/10) true).2.1 (by norm_num),
   (claim_C3_hysteresis (3/10) true).2.2.1 (by norm_num) (by norm_num),
   (claim_C3_hysteresis (3/10) false).2.2.2.2 (by norm_num) (by norm_num)⟩

/-- C4 (confirmed).  After every processed frame the voting window holds at
most 10 entries (oldest evicted first by the `[-10:]` truncation), the
frame's session-level candidate is true iff at least
`frame_window_threshold` (default 3) of the windowed decisions are true, and
every whole `process_audio` call preserves the window bound. -/
theorem claim_C4_voting_window (cfg : Config) (prob t : ℚ) (s : Session) :
    (stepFrame cfg prob t s).1.voice_window.length ≤ 10 ∧
    ((stepFrame cfg prob t s).2 = true ↔
      cfg.frame_window_threshold ≤ ((stepFrame cfg prob t s).1.voice_window).count true) ∧
    (∀ (env : Env) (data : List ℕ) (fmt : String),
      s.voice_window.length ≤ 10 →
      (process_audio cfg env data fmt s).1.voice_window.length ≤ 10) := by
  refine ⟨stepFrame_voice_window_length_le cfg prob t s, ?_, ?_⟩
  · rw [stepFrame_snd, stepFrame_voice_window]
    simp
  · intro env data fmt h
    exact process_audio_voice_window_le cfg env data fmt s h

/-- Witness for C4 on a fresh session and a zero-byte call. -/
theorem claim_C4_witness :
    (stepFrame defaultConfig (9/10) 100 freshSession).1.voice_window.length ≤ 10 ∧
    (process_audio defaultConfig envVoiced [] "pcm" freshSession).1.voice_window.length ≤ 10 :=
  ⟨(claim_C4_voting_window defaultConfig (9/10) 100 freshSession).1,
   (claim_C4_voting_window defaultConfig (9/10) 100 freshSession).2.2 envVoiced [] "pcm"
     (by decide)⟩

/-- C6 (confirmed).  An opus call whose decode raises returns normally with
the session's pre-call `have_voice`, `voice_stop` reported false (even if an
endpoint is pending), no probability, and the session — buffer included — is
returned exactly as it was. -/
theorem claim_C6_decode_failure (cfg : Config) (env : Env) (data : List ℕ)
    (fmt : String) (s : Session) (hfmt : lower fmt = "opus")
    (hdec : env.decode = none) :
    process_audio cfg env data fmt s =
      (s, some { have_voice := s.have_voice, voice_stop := false, speech_prob := none }) :=
  process_audio_opus_fail cfg env data fmt s hfmt hdec

/-- Witness for C6: a decode failure on a session with pending state. -/
theorem claim_C6_witness :
    process_audio defaultConfig envScoreFail [1, 2, 3] "OPUS" sessionVoiced =
      (sessionVoiced,
        some { have_voice := sessionVoiced.have_voice, voice_stop := false
               speech_prob := none }) :=
  claim_C6_decode_failure defaultConfig envScoreFail [1, 2, 3] "OPUS" sessionVoiced
    (by decide) rfl

/-- C9 (confirmed).  No normal return carries `have_voice = true` and
`voice_stop = true` at once: a voiced last frame has just cleared the stored
flag, and the early opus returns hard-code `voice_stop = false`. -/
theorem claim_C9_flags_exclusive (cfg : Config) (env : Env) (data : List ℕ)
    (fmt : String) (s : Session) (s' : Session) (r : VADResponse)
    (h : process_audio cfg env data fmt s = (s', some r)) :
    ¬ (r.have_voice = true ∧ r.voice_stop = true) := by
  rintro ⟨hv, hs⟩
  rcases process_audio_shape cfg env data fmt s with ⟨-, -, heq⟩ | ⟨b, -, heq⟩
  · rw [heq] at h
    have hr : r = { have_voice := s.have_voice, voice_stop := false, speech_prob := none } := by
      have := congrArg Prod.snd h
      simpa using this.symm
    rw [hr] at hs
    simp at hs
  · rw [heq] at h
    have := finishCall_flags cfg env _ s' r h hv
    rw [hs] at this
    cases this

/-- Witness for C9 at the voiced three-frame call. -/
theorem claim_C9_witness :
    ¬ ((VADResponse.mk true false (some (9/10))).have_voice = true ∧
      (VADResponse.mk true false (some (9/10))).voice_stop = true) :=
  claim_C9_flags_exclusive defaultConfig envVoiced (List.replicate (1024 * 3) 0) "pcm"
    freshSession sessionVoiced (VADResponse.mk true false (some (9/10)))
    sessionVoiced_reachable

/-- C10 (confirmed).  `audio_format` is matched against `"opus"`
case-insensitively; every other string — any letter case, unknown formats
included — takes the raw-PCM append path, behaving exactly like `"pcm"`, and
the dispatch never rejects a format. -/
theorem claim_C10_format_dispatch :
    (∀ (cfg : Config) (env : Env) (data : List ℕ) (fmt : String) (s : Session),
      lower fmt ≠ "opus" →
      process_audio cfg env data fmt s = process_audio cfg env data "pcm" s ∧
      process_audio cfg env data fmt s =
        finishCall cfg env { s with audio_buffer := s.audio_buffer ++ data }) ∧
    (∀ (cfg : Config) (env : Env) (data : List ℕ) (s : Session),
      process_audio cfg env data "OPUS" s = process_audio cfg env data "opus" s ∧
      process_audio cfg env data "Opus" s = process_audio cfg env data "opus" s ∧
      process_audio cfg env data "oPuS" s = process_audio cfg env data "opus" s) := by
  constructor
  · intro cfg env data fmt s hfmt
    refine ⟨?_, process_audio_not_opus cfg env data fmt s hfmt⟩
    rw [process_audio_not_opus cfg env data fmt s hfmt,
      process_audio_not_opus cfg env data "pcm" s (by decide)]
  · intro cfg env data s
    unfold process_audio
    rw [if_pos (show lower "OPUS" = "opus" by decide),
      if_pos (show lower "Opus" = "opus" by decide),
      if_pos (show lower "oPuS" = "opus" by decide),
      if_pos (show lower "opus" = "opus" by decide)]
    exact ⟨rfl, rfl, rfl⟩

/-- Witness for C10 at an unknown format string. -/
theorem claim_C10_witness :
    process_audio defaultConfig envVoiced [] "flac" freshSession =
      process_audio defaultConfig envVoiced [] "pcm" freshSession :=
  (claim_C10_format_dispatch.1 defaultConfig envVoiced [] "flac" freshSession (by decide)).1

/-- C2 counterexample.  `sessionVoiced` is reachable (first conjunct) and has
`have_voice = true`, yet a call draining zero new complete frames (no bytes
at all here) returns `have_voice = false` — the loop's initial candidate —
not the session's stored prior value, contradicting the claim. -/
theorem claim_C2_counterexample :
    (process_audio defaultConfig envVoiced (List.replicate (1024 * 3) 0) "pcm"
        freshSession).1 = sessionVoiced ∧
    sessionVoiced.have_voice = true ∧
    process_audio defaultConfig envVoiced [] "pcm" sessionVoiced =
      (sessionVoiced,
        some { have_voice := false, voice_stop := false, speech_prob := none }) := by
  refine ⟨by rw [sessionVoiced_reachable], rfl, ?_⟩
  rw [process_audio_zero_frames defaultConfig envVoiced [] "pcm" sessionVoiced []
    (by unfold ingestBytes; rw [if_neg (by decide)]) (by decide)]
  rfl

/-- C2 (corrected).  A call draining zero complete frames returns
`have_voice = false` unconditionally (not the stored prior value), returns
the prior `voice_stop` (clearing it in the session if it was true), no
probability; the stored `have_voice`, window, decision and timestamp are
unchanged and the new bytes stay buffered. -/
theorem claim_C2_zero_frames (cfg : Config) (env : Env) (data : List ℕ)
    (fmt : String) (s : Session) (b : List ℕ)
    (hb : ingestBytes env data fmt = some b)
    (hlen : s.audio_buffer.length + b.length < 1024) :
    ∃ s', process_audio cfg env data fmt s =
        (s', some { have_voice := false, voice_stop := s.voice_stop, speech_prob := none }) ∧
      s'.have_voice = s.have_voice ∧ s'.voice_window = s.voice_window ∧
      s'.last_is_voice = s.last_is_voice ∧
      s'.last_activity_time = s.last_activity_time ∧
      s'.audio_buffer = s.audio_buffer ++ b ∧ s'.voice_stop = false := by
  rw [process_audio_zero_frames cfg env data fmt s b hb hlen]
  cases hvs : s.voice_stop
  · rw [if_neg Bool.false_ne_true]
    exact ⟨_, rfl, rfl, rfl, rfl, rfl, rfl, rfl⟩
  · rw [if_pos rfl]
    exact ⟨_, rfl, rfl, rfl, rfl, rfl, rfl, rfl⟩

/-- Witness for C2 (corrected) at the zero-byte call on `sessionVoiced`. -/
theorem claim_C2_witness :
    ∃ s', process_audio defaultConfig envVoiced [] "pcm" sessionVoiced =
        (s', some (VADResponse.mk false sessionVoiced.voice_stop none)) ∧
      s'.have_voice = sessionVoiced.have_voice ∧
      s'.voice_window = sessionVoiced.voice_window ∧
      s'.last_is_voice = sessionVoiced.last_is_voice ∧
      s'.last_activity_time = sessionVoiced.last_activity_time ∧
      s'.audio_buffer = sessionVoiced.audio_buffer ++ [] ∧ s'.voice_stop = false :=
  claim_C2_zero_frames defaultConfig envVoiced [] "pcm" sessionVoiced []
    (by unfold ingestBytes; rw [if_neg (by decide)]) (by decide)

/-- C5 counterexample.  A call whose only frame's score raises leaves
exactly 1024 bytes — one whole frame — in the buffer: the drain invariant
fails for failing calls (the failing frame's chunk is sliced off before the
scorer runs, and the remaining 1024 bytes are never drained). -/
theorem claim_C5_counterexample :
    process_audio defaultConfig envScoreFail (List.replicate (1024 * 2) 0) "pcm"
        freshSession =
      ({ freshSession with audio_buffer := List.replicate 1024 0 }, none) ∧
    ¬ (({ freshSession with audio_buffer := List.replicate 1024 0 } : Session).audio_buffer.length
        < 1024) := by
  constructor
  · rw [process_audio_score_fail_first defaultConfig envScoreFail
      (List.replicate (1024 * 2) 0) "pcm" freshSession (List.replicate (1024 * 2) 0)
      (by unfold ingestBytes; rw [if_neg (by decide)]) rfl
      (by rw [List.length_replicate]; norm_num [freshSession])]
    rw [show freshSession.audio_buffer ++ List.replicate (1024 * 2) 0 =
      List.replicate (1024 * 2) 0 from List.nil_append _]
    rw [List.drop_replicate]
  · intro hx
    rw [show ({ freshSession with audio_buffer := List.replicate 1024 0 } :
      Session).audio_buffer = List.replicate 1024 0 from rfl, List.length_replicate] at hx
    omega

/-- C5 (corrected).  Every call that returns normally leaves the buffer
either below one frame (the drain loop ran to exhaustion) or — on the opus
decode-failure early return — exactly as it was; a failing call may leave a
full frame or more buffered. -/
theorem claim_C5_buffer_drained (cfg : Config) (env : Env) (data : List ℕ)
    (fmt : String) (s : Session) (s' : Session) (r : VADResponse)
    (h : process_audio cfg env data fmt s = (s', some r)) :
    s'.audio_buffer.length < 1024 ∨ s'.audio_buffer = s.audio_buffer := by
  rcases process_audio_shape cfg env data fmt s with ⟨-, -, heq⟩ | ⟨b, -, heq⟩
  · rw [heq] at h
    have hs' : s' = s := by
      have := congrArg Prod.fst h
      simpa using this.symm
    exact Or.inr (by rw [hs'])
  · rw [heq] at h
    exact Or.inl (finishCall_some_buffer_lt cfg env _ s' r h)

/-- Witness for C5 (corrected) at the voiced three-frame call. -/
theorem claim_C5_witness :
    sessionVoiced.audio_buffer.length < 1024 ∨
      sessionVoiced.audio_buffer = freshSession.audio_buffer :=
  claim_C5_buffer_drained defaultConfig envVoiced (List.replicate (1024 * 3) 0) "pcm"
    freshSession sessionVoiced (VADResponse.mk true false (some (9/10)))
    sessionVoiced_reachable

/-- C7 counterexample.  The scorer raises on frame k = 1 of a two-frame
call; the claim predicts the session equals the state after successfully
processing frames 1..0 — i.e. the fresh session with all 2048 appended bytes
still buffered — but the failing frame's 1024 bytes were already drained
before the scorer ran, so only 1024 bytes remain. -/
theorem claim_C7_counterexample :
    process_audio defaultConfig envScoreFail (List.replicate (1024 * 2) 0) "pcm"
        freshSession =
      ({ freshSession with audio_buffer := List.replicate 1024 0 }, none) ∧
    ({ freshSession with audio_buffer := List.replicate 1024 0 } : Session) ≠
      { freshSession with audio_buffer := List.replicate (1024 * 2) 0 } := by
  constructor
  · rw [process_audio_score_fail_first defaultConfig envScoreFail
      (List.replicate (1024 * 2) 0) "pcm" freshSession (List.replicate (1024 * 2) 0)
      (by unfold ingestBytes; rw [if_neg (by decide)]) rfl
      (by rw [List.length_replicate]; norm_num [freshSession])]
    rw [show freshSession.audio_buffer ++ List.replicate (1024 * 2) 0 =
      List.replicate (1024 * 2) 0 from List.nil_append _]
    rw [List.drop_replicate]
  · intro hx
    have hlen := congrArg (fun u => u.audio_buffer.length) hx
    simp only [List.length_replicate] at hlen
    norm_num at hlen

/-- C7 (corrected).  A score failure aborts the call with an error and no
rollback: at the failing frame the session equals the state after the
successfully processed earlier frames except that the failing frame's 1024
bytes have additionally been drained from the buffer.  Stated for the loop
at an arbitrary failing frame and for the whole call when the first frame
fails. -/
theorem claim_C7_score_failure (cfg : Config) (env : Env) :
    (∀ (idx : ℕ) (buf : List ℕ) (s : Session) (chv : Bool) (sp : Option ℚ),
      1024 ≤ buf.length → env.score idx = none →
      drainLoop cfg env idx buf s chv sp =
        ({ s with audio_buffer := buf.drop 1024 }, none)) ∧
    (∀ (data : List ℕ) (fmt : String) (s : Session) (b : List ℕ),
      ingestBytes env data fmt = some b → env.score 0 = none →
      1024 ≤ s.audio_buffer.length + b.length →
      process_audio cfg env data fmt s =
        ({ s with audio_buffer := (s.audio_buffer ++ b).drop 1024 }, none)) :=
  ⟨fun idx buf s chv sp h1 h2 => drainLoop_of_score_none cfg env idx buf s chv sp h1 h2,
   fun data fmt s b hb hs hl => process_audio_score_fail_first cfg env data fmt s b hb hs hl⟩

/-- Witness for C7 (corrected) at the two-frame score-failure call. -/
theorem claim_C7_witness :
    process_audio defaultConfig envScoreFail (List.replicate (1024 * 2) 0) "pcm"
        freshSession =
      ({ freshSession with
          audio_buffer := (freshSession.audio_buffer ++ List.replicate (1024 * 2) 0).drop 1024 },
        none) :=
  (claim_C7_score_failure defaultConfig envScoreFail).2 (List.replicate (1024 * 2) 0) "pcm"
    freshSession (List.replicate (1024 * 2) 0)
    (by unfold ingestBytes; rw [if_neg (by decide)]) rfl
    (by rw [List.length_replicate]; norm_num [freshSession])

/-- C8 (confirmed).  A normal return reporting `voice_stop = true` has
cleared the stored flag before returning, so any immediately following call
for the same session that drains zero new complete frames (too few appended
bytes, or a decode failure) reports `voice_stop = false`. -/
theorem claim_C8_one_shot (cfg : Config) (env : Env) (data : List ℕ) (fmt : String)
    (s : Session) (s' : Session) (r : VADResponse)
    (h : process_audio cfg env data fmt s = (s', some r)) (hr : r.voice_stop = true) :
    s'.voice_stop = false ∧
    ∀ (env₂ : Env) (data₂ : List ℕ) (fmt₂ : String) (s'' : Session) (r₂ : VADResponse),
      (∀ b, ingestBytes env₂ data₂ fmt₂ = some b →
        s'.audio_buffer.length + b.length < 1024) →
      process_audio cfg env₂ data₂ fmt₂ s' = (s'', some r₂) →
      r₂.voice_stop = false := by
  have h1 : s'.voice_stop = false := by
    rcases process_audio_shape cfg env data fmt s with ⟨-, -, heq⟩ | ⟨b, -, heq⟩
    · rw [heq] at h
      have hrv : r = VADResponse.mk s.have_voice false none := by
        have := congrArg Prod.snd h
        simpa using this.symm
      rw [hrv] at hr
      simp at hr
    · rw [heq] at h
      exact finishCall_read_clears cfg env _ s' r h hr
  exact ⟨h1, fun env₂ data₂ fmt₂ s'' r₂ hz h₂ =>
    process_audio_zero_new_voice_stop cfg env₂ data₂ fmt₂ s' h1 hz s'' r₂ h₂⟩

/-- Witness for C8: the endpoint fires at 2500 ms on `sessionOnEdge`, the
flag is stored cleared, and an immediate zero-byte follow-up reports
`voice_stop = false`. -/
theorem claim_C8_witness :
    sessionAfterFirstSilent.voice_stop = false ∧
    (VADResponse.mk false false none).voice_stop = false := by
  have h := claim_C8_one_shot defaultConfig envSilent2500 (List.replicate (1024 * 1) 0)
    "pcm" sessionOnEdge sessionAfterFirstSilent
    (VADResponse.mk false true (some 0)) endpointFires_at_2500 rfl
  refine ⟨h.1, h.2 envSilent2500 [] "pcm" sessionAfterFirstSilent
    (VADResponse.mk false false none) ?_ ?_⟩
  · intro b hb
    unfold ingestBytes at hb
    rw [if_neg (by decide)] at hb
    have hbe : ([] : List ℕ) = b := Option.some.inj hb
    rw [← hbe]
    decide
  · rw [process_audio_zero_frames defaultConfig envSilent2500 [] "pcm"
      sessionAfterFirstSilent [] (by unfold ingestBytes; rw [if_neg (by decide)]) (by decide)]
    rfl

/-- C1 counterexample.  `sessionOnEdge` is reachable and has voice with last
recorded voice time T = 1000 (first three conjuncts).  It is then fed only
frames whose voting candidate is false (each call's reported `have_voice` is
that frame's candidate).  The first silent frame, observed at 1500 ms
(before T + 1000), does not fire — as the claim also predicts — but the next
silent frame, observed at 2600 ms ≥ T + 1000, is where the claim says
`pending_endpoint` becomes true; the call reports `voice_stop = false` and
stores `voice_stop = false`: the per-frame endpoint check was not evaluated
there (the stored `has_voice` already fell on the first silent frame). -/
theorem claim_C1_counterexample :
    (process_audio defaultConfig envRamp (List.replicate (1024 * 10) 0) "pcm"
        freshSession).1 = sessionOnEdge ∧
    sessionOnEdge.have_voice = true ∧
    sessionOnEdge.last_activity_time = 1000 ∧
    process_audio defaultConfig envSilent1500 (List.replicate (1024 * 1) 0) "pcm"
        sessionOnEdge =
      (sessionAfterFirstSilent, some (VADResponse.mk false false (some 0))) ∧
    defaultConfig.silence_threshold_ms ≤ (2600 : ℚ) - sessionOnEdge.last_activity_time ∧
    process_audio defaultConfig envSilent2600 (List.replicate (1024 * 1) 0) "pcm"
        sessionAfterFirstSilent =
      ({ sessionAfterFirstSilent with
          voice_window := [true, false, false, false, false, false, false, false, false, false] },
        some (VADResponse.mk false false (some 0))) ∧
    ({ sessionAfterFirstSilent with
        voice_window := [true, false, false, false, false, false, false, false, false, false] } :
      Session).voice_stop = false := by
  refine ⟨by rw [sessionOnEdge_reachable], rfl, rfl, sessionAfterFirstSilent_reachable,
    by norm_num [defaultConfig, sessionOnEdge], ?_, rfl⟩
  rw [process_audio_replicate defaultConfig envSilent2600 1 "pcm" (by decide)
    sessionAfterFirstSilent rfl
    { sessionAfterFirstSilent with
        voice_window := [true, false, false, false, false, false, false, false, false, false] }
    false (some 0)
    (by norm_num [runFramesOk, stepFrame, classify, pushWindow, defaultConfig, envSilent2600,
      sessionAfterFirstSilent])]
  rfl

/-- C1 (corrected).  Complete characterization of the endpoint flag after
one frame: a frame with candidate true clears it; a frame with candidate
false keeps a previously set flag, and newly sets it exactly when the
*previous* frame's stored `has_voice` is still true — i.e. only on the
voice→silence transition frame, the first silent frame — with a positive
last recorded voice time whose distance to the frame's clock has reached
`SILENCE_MS`.  Later silent frames (stored `has_voice` already false) never
newly set it, so during uninterrupted silence the flag fires only if the
transition frame itself is already at or past T + SILENCE_MS. -/
theorem claim_C1_endpoint_transition_only (cfg : Config) (prob t : ℚ) (s : Session) :
    (stepFrame cfg prob t s).1.voice_stop = true ↔
      ((stepFrame cfg prob t s).2 = false ∧
        (s.voice_stop = true ∨
          (s.have_voice = true ∧ 0 < s.last_activity_time ∧
            cfg.silence_threshold_ms ≤ t - s.last_activity_time))) := by
  rw [stepFrame_voice_stop]
  cases h2 : (stepFrame cfg prob t s).2
  · simp [and_assoc]
  · simp

end VadService
